import Mathlib

set_option maxRecDepth 100000

/-!
Shallow embedding of the Ledger & Reporting Engine of this repository
(`src/src/app.js` and the fuller route file `src/unnamed/part_000`, which
extends `app.js` with the deposit and admin-report routes; where both
files contain a route they are line-for-line the same logic).

Modelling conventions:
* Monetary amounts (`balance`, `price`, deposit `amount`) are exact
  rationals `ℚ`.  The source computes them with native JavaScript numbers
  and `.toFixed(2)`; the exact-rational model is used for the functional
  claims, and a separate binary64 rounding model (`fpRoundAt`) is used
  where the floating-point representation itself is at issue.
* SQL `NULL` is `Option.none`; the `Job.paid` column, written as `1` by
  the pay route and tested for JavaScript truthiness, is `Option Bool`
  (`none` = NULL, `some false` = 0/false, `some true` = 1/true).
* Timestamps (`paymentDate`, the `start`/`end` query parameters) are
  modelled as integers ordered like the ISO-8601 strings the source
  compares with SQL `BETWEEN` (lexicographic order on ISO-8601 strings
  agrees with chronological order).
* `findOne`/`findAll` over a table are `List.find?`/`List.filter` over a
  list of rows in table order; aggregate `SUM` over an empty row set is
  `none` (SQL NULL), mirrored by `Option ℚ` results.
-/

namespace RestExercise

/-- A row of the `Profiles` table as used by the routes:
`{id, type, balance, profession}`. -/
structure Profile where
  id : ℤ
  type : String
  balance : ℚ
  profession : String
  deriving DecidableEq, Repr

/-- A row of the `Contracts` table: `{id, ClientId, ContractorId, status}`. -/
structure Contract where
  id : ℤ
  ClientId : ℤ
  ContractorId : ℤ
  status : String
  deriving DecidableEq, Repr

/-- A row of the `Jobs` table: `{id, ContractId, price, paid, paymentDate}`.
`paid` is `none` for SQL NULL, `some b` for a stored boolean/0-1 value;
`paymentDate` is `none` for NULL. -/
structure Job where
  id : ℤ
  ContractId : ℤ
  price : ℚ
  paid : Option Bool
  paymentDate : Option ℤ
  deriving DecidableEq, Repr

/-- The database: the three tables, each a list of rows in table order. -/
structure DB where
  profiles : List Profile
  contracts : List Contract
  jobs : List Job
  deriving DecidableEq, Repr

/-- JavaScript truthiness of the `paid` column value
(`if (jobToPay.paid)`): NULL and false/0 are falsy, true/1 is truthy. -/
def truthyOpt : Option Bool → Bool
  | none => false
  | some b => b

/-- `x.toFixed(2)` read back as a number: round to the nearest multiple of
1/100, ties toward the larger value (the ECMAScript `toFixed` rule). -/
def toFixed2 (q : ℚ) : ℚ := (⌊q * 100 + 1/2⌋ : ℚ) / 100

/-- `Profile.update({balance: newBal}, {where: {id: pid}})`: set the
balance of every profile row matching the id. -/
def updateProfileBalance (ps : List Profile) (pid : ℤ) (newBal : ℚ) :
    List Profile :=
  ps.map (fun p => if p.id == pid then { p with balance := newBal } else p)

/-- `Job.update({paid: 1}, {where: {id: jid}})` as issued by the pay
route: it sets only the `paid` column; `paymentDate` is not touched. -/
def markJobPaid (js : List Job) (jid : ℤ) : List Job :=
  js.map (fun j => if j.id == jid then { j with paid := some true } else j)

/-- Outcome of `POST /jobs/:job_id/pay`.  `crash` stands for a JavaScript
TypeError on a property of a `null` query result (surfaced as HTTP 500). -/
inductive PayRes where
  | notFound
  | alreadyPaid
  | forbidden
  | insufficientBalance
  | ok
  | crash
  deriving DecidableEq, Repr

/-- `POST /jobs/:job_id/pay` (src/unnamed/part_000 lines 117-189).
Checks in source order: job exists (else 404), `jobToPay.paid` truthy
(else 409 already paid), contract's `ClientId` equals the caller (else
403), client balance at least the price (else 409 insufficient balance);
then the three updates.

The three updates pass `{ transaction: t }` as a *third* positional
argument to `Model.update`, whose signature is `(values, options)`, so
each update autocommits on its own (see `payTxnMutations` below for the
mutation-level model).  Consequently, when the contractor profile row is
absent, the client-balance update has already been issued and committed
before `contractorProfile.balance` throws: the `crash` branch for a
missing contractor profile returns the database with the client already
debited. -/
def payJob (db : DB) (clientId jobId : ℤ) : PayRes × DB :=
  match db.jobs.find? (fun j => j.id == jobId) with
  | none => (.notFound, db)
  | some jobToPay =>
    if truthyOpt jobToPay.paid then (.alreadyPaid, db)
    else
      match db.contracts.find? (fun c => c.id == jobToPay.ContractId) with
      | none => (.crash, db)
      | some contract =>
        if contract.ClientId != clientId then (.forbidden, db)
        else
          match db.profiles.find? (fun p => p.id == clientId) with
          | none => (.crash, db)
          | some clientProfile =>
            if clientProfile.balance < jobToPay.price then
              (.insufficientBalance, db)
            else
              match db.profiles.find? (fun p => p.id == contract.ContractorId) with
              | none =>
                (.crash, { db with
                  profiles := updateProfileBalance db.profiles clientId
                    (toFixed2 (clientProfile.balance - jobToPay.price)) })
              | some contractorProfile =>
                (.ok, { db with
                  profiles := updateProfileBalance
                    (updateProfileBalance db.profiles clientId
                      (toFixed2 (clientProfile.balance - jobToPay.price)))
                    contract.ContractorId
                    (toFixed2 (contractorProfile.balance + jobToPay.price)),
                  jobs := markJobPaid db.jobs jobId })

/-- `getAllActiveContracts` (part_000 lines 55-67): contracts where the
user is contractor or client, and `status ≠ 'terminated'`. -/
def activeContractsOf (db : DB) (uid : ℤ) : List Contract :=
  db.contracts.filter
    (fun c => (c.ContractorId == uid || c.ClientId == uid) &&
      c.status != "terminated")

/-- The job filter shared by `GET /jobs/unpaid` (lines 86-93) and the
deposit route's unpaid total (lines 224-232):
`Paid IS NULL AND ContractId IN contractIds`. -/
def unpaidFilter (contractIds : List ℤ) (j : Job) : Bool :=
  j.paid.isNone && contractIds.contains j.ContractId

/-- `GET /jobs/unpaid` (part_000 lines 78-95): unpaid jobs over the
user's active contracts. -/
def unpaidJobsOf (db : DB) (uid : ℤ) : List Job :=
  db.jobs.filter (unpaidFilter ((activeContractsOf db uid).map (·.id)))

/-- `SELECT sum(price) FROM Jobs WHERE Paid IS NULL AND ContractId IN …`:
SQL `SUM` over an empty row set is NULL (`none`). -/
def sumUnpaidPrices (db : DB) (contractIds : List ℤ) : Option ℚ :=
  let rows := db.jobs.filter (unpaidFilter contractIds)
  if rows.isEmpty then none else some ((rows.map (·.price)).sum)

/-- JavaScript numeric coercion applied to a SQL aggregate that may be
NULL: in `(total / 100) * 25` a `null` total coerces to 0. -/
def jsNumQ : Option ℚ → ℚ
  | none => 0
  | some q => q

/-- Outcome of `POST /balances/deposit/:userId`.  `crash` is a TypeError
on a property of a `null` query result (HTTP 500). -/
inductive DepRes where
  | forbidden
  | limitExceeded
  | ok
  | crash
  deriving DecidableEq, Repr

/-- `POST /balances/deposit/:userId` (part_000 lines 207-252).
In source order: caller must equal the target user (else 403); the target
profile's type must be `'client'` (else 403); the unpaid total over the
caller's active contracts is computed (NULL coerces to 0); the deposit is
rejected when `amount > (total / 100) * 25` (else 403 with the
deposit-limit message); otherwise the target's balance is credited with
`(balance + amount).toFixed(2)`.  There is no check on the sign of
`amount` anywhere in the route. -/
def deposit (db : DB) (callerId userId : ℤ) (amount : ℚ) : DepRes × DB :=
  if callerId != userId then (.forbidden, db)
  else
    match db.profiles.find? (fun p => p.id == userId) with
    | none => (.crash, db)
    | some userProfile =>
      if userProfile.type != "client" then (.forbidden, db)
      else
        let contractIds := (activeContractsOf db callerId).map (·.id)
        let total := sumUnpaidPrices db contractIds
        if amount > jsNumQ total / 100 * 25 then (.limitExceeded, db)
        else
          (.ok, { db with
            profiles := updateProfileBalance db.profiles userId
              (toFixed2 (userProfile.balance + amount)) })

/-! ### Admin report queries -/

/-- `paymentDate BETWEEN start AND end` on a nullable column: SQL
`BETWEEN` is inclusive at both endpoints, and a NULL date never
qualifies. -/
def inRangeBetween (d : Option ℤ) (s e : ℤ) : Bool :=
  match d with
  | none => false
  | some t => s ≤ t && t ≤ e

/-- Per-contractor aggregate of `GET /admin/best-profession` (part_000
lines 285-311): sum of `price` over jobs with `Paid` NOT NULL, contract
belonging to the contractor, and `paymentDate BETWEEN start AND end`;
SQL `SUM` is NULL (`none`) when no row matches. -/
def contractorSum (db : DB) (contractorId : ℤ) (s e : ℤ) : Option ℚ :=
  let contractIds :=
    (db.contracts.filter (fun c => c.ContractorId == contractorId)).map (·.id)
  let rows := db.jobs.filter
    (fun j => j.paid.isSome && contractIds.contains j.ContractId &&
      inRangeBetween j.paymentDate s e)
  if rows.isEmpty then none else some ((rows.map (·.price)).sum)

/-- The values the loop variable `maxValue` of best-profession ranges
over: its initial `Number.NEGATIVE_INFINITY`, a SQL-NULL sum, or a
number. -/
inductive JNum where
  | ninf
  | null
  | num (q : ℚ)
  deriving DecidableEq, Repr

/-- The JavaScript comparison `maxValue < sumPaidJobsByContractId`
(part_000 line 312): `null` coerces to 0 on either side;
`-Infinity` is below every number.  The right-hand side is the SQL sum,
which is `null` or a number. -/
def jsLtLoop (maxValue : JNum) (sum : Option ℚ) : Bool :=
  match maxValue, sum with
  | .ninf, _ => true
  | .null, none => false
  | .null, some q => decide (0 < q)
  | .num m, none => decide (m < 0)
  | .num m, some q => decide (m < q)

/-- Storing the loop's sum into `maxValue`: the value is kept as-is
(`null` stays `null`). -/
def toJNum : Option ℚ → JNum
  | none => .null
  | some q => .num q

/-- The `for (const el of contractors)` loop of best-profession (part_000
lines 285-316), threading `(maxValue, maxPaidContractorId)`. -/
def bpLoop (db : DB) (s e : ℤ) :
    List Profile → JNum → Option ℤ → JNum × Option ℤ
  | [], m, mid => (m, mid)
  | el :: rest, m, mid =>
    let sum := contractorSum db el.id s e
    if jsLtLoop m sum then bpLoop db s e rest (toJNum sum) (some el.id)
    else bpLoop db s e rest m mid

/-- `Profile.findAll({where: {type: 'contractor'}})`. -/
def contractorsOf (db : DB) : List Profile :=
  db.profiles.filter (fun p => p.type == "contractor")

/-- `GET /admin/best-profession` (part_000 lines 268-323): run the loop
from `maxValue = -Infinity`, then scan the contractor list for the id
that captured the maximum and send its profession.  When no contractor
captured the maximum (no contractors at all) the handler falls through
and no response body is sent (`none`). -/
def bestProfession (db : DB) (s e : ℤ) : Option String :=
  let contractors := contractorsOf db
  match (bpLoop db s e contractors .ninf none).2 with
  | none => none
  | some cid => (contractors.find? (fun c => c.id == cid)).map (·.profession)

/-- One joined row group of the best-clients SQL (part_000 lines
343-354): for a client profile `p`, the joined `(contract, job)` rows
with `c.ClientId = p.id AND j.ContractId = c.id`, job paid NOT NULL and
`paymentDate BETWEEN start AND end`. -/
def clientPaidRows (db : DB) (p : Profile) (s e : ℤ) : List Job :=
  (db.contracts.filter (fun c => c.ClientId == p.id)).flatMap
    (fun c => db.jobs.filter
      (fun j => j.ContractId == c.id && j.paid.isSome &&
        inRangeBetween j.paymentDate s e))

/-- Descending insertion into a list ordered by the second component
(the SQL `ORDER BY totPaid desc`). -/
def insertByTotDesc (r : ℤ × ℚ) : List (ℤ × ℚ) → List (ℤ × ℚ)
  | [] => [r]
  | x :: xs => if x.2 < r.2 then r :: x :: xs else x :: insertByTotDesc r xs

/-- Sort rows by total paid, descending. -/
def orderByTotDesc : List (ℤ × ℚ) → List (ℤ × ℚ)
  | [] => []
  | x :: xs => insertByTotDesc x (orderByTotDesc xs)

/-- `GET /admin/best-clients` (part_000 lines 339-356): inner-join rows
grouped by client id (a client with no qualifying joined row produces no
group), `SUM(j.price)` per group, ordered by the total descending,
truncated to `limit` (default 2).  Each result row is
`(client id, totPaid)`. -/
def bestClients (db : DB) (s e : ℤ) (limit : ℕ) : List (ℤ × ℚ) :=
  let rows := (db.profiles.filter (fun p => p.type == "client")).filterMap
    (fun p =>
      let js := clientPaidRows db p s e
      if js.isEmpty then none else some (p.id, (js.map (·.price)).sum))
  (orderByTotDesc rows).take limit

/-! ### Mutation-level model of the pay transaction block

`sequelize.transaction(async (t) => { ... })` (part_000 lines 156-183)
issues three `Model.update` calls.  Sequelize's `Model.update` signature
is `update(values, options)`; an update joins the managed transaction
`t` only when `options.transaction` is set.  In the source every one of
the three calls passes `{ where: ... }` as `options` and `{ transaction:
t }` as a *third* positional argument, which `update` ignores. -/

/-- The `options` object of a `Model.update` call: the `where` id and the
`transaction` field (absent in all three calls of the source). -/
structure UpdateOptions where
  whereId : ℤ
  transaction : Option Unit := none
  deriving DecidableEq, Repr

/-- A third positional argument handed to `Model.update`; the method's
signature is `(values, options)`, so this argument is discarded. -/
structure ExtraArg where
  transaction : Option Unit
  deriving DecidableEq, Repr

/-- An elementary row mutation issued to the store. `inTxn` records
whether the mutation was registered on the managed transaction `t`. -/
inductive Mutation where
  | setProfileBalance (id : ℤ) (newBal : ℚ) (inTxn : Bool)
  | setJobPaid (id : ℤ) (inTxn : Bool)
  deriving DecidableEq, Repr

/-- Whether a mutation was registered on the managed transaction. -/
def Mutation.isInTxn : Mutation → Bool
  | .setProfileBalance _ _ b => b
  | .setJobPaid _ b => b

/-- `Profile.update(values, options, extra)` as a mutation record: the
transaction membership comes from `options` only; `extra` is ignored by
the method. -/
def profileUpdateCall (newBal : ℚ) (options : UpdateOptions)
    (_extra : ExtraArg) : Mutation :=
  .setProfileBalance options.whereId newBal options.transaction.isSome

/-- `Job.update({paid: 1}, options, extra)` as a mutation record. -/
def jobUpdateCall (options : UpdateOptions) (_extra : ExtraArg) : Mutation :=
  .setJobPaid options.whereId options.transaction.isSome

/-- The three update calls of the transaction callback (part_000 lines
156-176), in source order, with the arguments exactly as the source
passes them: `options = { where: {id: …} }` (no `transaction` field) and
the `{ transaction: t }` object in the ignored third position. -/
def payTxnMutations (clientProfile contractorProfile : Profile)
    (contract : Contract) (jobToPay : Job) (clientId jobId : ℤ) :
    List Mutation :=
  [ profileUpdateCall (toFixed2 (clientProfile.balance - jobToPay.price))
      { whereId := clientId } { transaction := some () },
    profileUpdateCall (toFixed2 (contractorProfile.balance + jobToPay.price))
      { whereId := contract.ContractorId } { transaction := some () },
    jobUpdateCall { whereId := jobId } { transaction := some () } ]

/-- Apply one mutation to the database. -/
def applyMutation (db : DB) : Mutation → DB
  | .setProfileBalance pid newBal _ =>
    { db with profiles := updateProfileBalance db.profiles pid newBal }
  | .setJobPaid jid _ =>
    { db with jobs := markJobPaid db.jobs jid }

/-- Apply a list of mutations left to right. -/
def applyAll (db : DB) : List Mutation → DB
  | [] => db
  | m :: ms => applyAll (applyMutation db m) ms

/-- The database state observable when the operation fails after the
first `k` mutation calls: the transaction `t` is rolled back, which
undoes exactly the mutations registered on it; mutations issued in
autocommit mode (no `transaction` in their options) persist. -/
def abortAfter (db : DB) (ms : List Mutation) (k : ℕ) : DB :=
  applyAll db ((ms.take k).filter (fun m => !m.isInTxn))

/-! ### Binary64 rounding model for the money arithmetic

The source computes `(balance ± price)` with native JavaScript numbers
(IEEE-754 binary64) and stores `(…).toFixed(2)`.  For a positive value
in the binade `[2^b, 2^(b+1))` the distance between adjacent binary64
numbers is `2^(b-52)`; rounding a real to binary64 rounds to the nearest
multiple of that ULP, ties to the even multiple. -/

/-- Round a rational to the nearest integer, ties to the even integer
(the IEEE-754 default rounding). -/
def roundHalfEven (q : ℚ) : ℤ :=
  let f := ⌊q⌋
  let r := q - f
  if r < 1/2 then f
  else if 1/2 < r then f + 1
  else if f % 2 = 0 then f else f + 1

/-- Binary64 rounding of a rational whose magnitude lies in the binade
with ULP `2^ulpExp`: round to the nearest multiple of `2^ulpExp`, ties
to even. -/
def fpRoundAt (ulpExp : ℤ) (q : ℚ) : ℚ :=
  (roundHalfEven (q / (2:ℚ)^ulpExp) : ℚ) * (2:ℚ)^ulpExp

/-! ### Observers and concrete data -/

/-- The balance of the profile with the given id, `none` when absent. -/
def balanceOf (db : DB) (pid : ℤ) : Option ℚ :=
  (db.profiles.find? (fun p => p.id == pid)).map (·.balance)

/-- Numeric reading of a `JNum` for reasoning about the best-profession
loop: `-Infinity` is `⊥`, a SQL-NULL compares as 0, a number as itself. -/
def eJ : JNum → WithBot ℚ
  | .ninf => ⊥
  | .null => ((0 : ℚ) : WithBot ℚ)
  | .num q => (q : WithBot ℚ)

/-- The client of the end-to-end scenario of the spec (§8): balance 500. -/
def pClient : Profile := ⟨1, "client", 500, ""⟩

/-- The contractor of the end-to-end scenario: balance 0. -/
def pContractor : Profile := ⟨2, "contractor", 0, "welder"⟩

/-- The contract linking client 1 and contractor 2. -/
def cMain : Contract := ⟨1, 1, 2, "in_progress"⟩

/-- The job of the scenario: price 200, unpaid, `paymentDate` NULL. -/
def jMain : Job := ⟨1, 1, 200, none, none⟩

/-- The end-to-end scenario database of the spec (§8). -/
def dbScenario : DB := ⟨[pClient, pContractor], [cMain], [jMain]⟩

/-- The scenario database with the contractor profile row absent. -/
def dbNoContractor : DB := ⟨[pClient], [cMain], [jMain]⟩

/-- The three update calls the pay transaction block issues for the
scenario payment. -/
def msScenario : List Mutation :=
  payTxnMutations pClient pContractor cMain jMain 1 1

/-- The scenario with the job already paid (`paid = 1`). -/
def dbPaidJob : DB := ⟨[pClient, pContractor], [cMain], [⟨1, 1, 200, some true, some 5⟩]⟩

/-- The scenario with the client balance 199, below the price 200. -/
def dbLowBalance : DB := ⟨[⟨1, "client", 199, ""⟩, pContractor], [cMain], [jMain]⟩

/-- The scenario with the client balance exactly equal to the price. -/
def dbExactBalance : DB := ⟨[⟨1, "client", 200, ""⟩, pContractor], [cMain], [jMain]⟩

/-- A client with balance 100 and no contracts or jobs at all. -/
def dbNoJobs : DB := ⟨[⟨1, "client", 100, ""⟩], [], []⟩

/-- A client with a single unpaid job of price 100 (unpaid total 100). -/
def dbUnpaid100 : DB :=
  ⟨[⟨1, "client", 100, ""⟩, ⟨2, "contractor", 0, "w"⟩], [⟨1, 1, 2, "new"⟩],
    [⟨1, 1, 100, none, none⟩]⟩

/-- Report data: painter (contractor 1) has one job of price 300 paid at
time 100, plumber (contractor 2) one job of price 50 paid at time 50. -/
def dbReports : DB :=
  ⟨[⟨1, "contractor", 0, "painter"⟩, ⟨2, "contractor", 0, "plumber"⟩,
    ⟨10, "client", 0, ""⟩, ⟨11, "client", 0, ""⟩],
   [⟨1, 10, 1, "in_progress"⟩, ⟨2, 11, 2, "in_progress"⟩],
   [⟨1, 1, 300, some true, some 100⟩, ⟨2, 2, 50, some true, some 50⟩]⟩

/-- A single contractor and no jobs at all. -/
def dbSoloContractor : DB := ⟨[⟨1, "contractor", 0, "welder"⟩], [], []⟩

/-- The scenario job with `paid` stored as false (0) rather than NULL. -/
def jFalse : Job := ⟨1, 1, 200, some false, none⟩

/-- The scenario database where the job's `paid` column is false, not
NULL. -/
def dbPaidFalse : DB := ⟨[pClient, pContractor], [cMain], [jFalse]⟩

/-! ## Theorems -/

/-- Inversion of the success branch of `payJob`: a call that returns
`.ok` found the job unpaid, found its contract with the caller as
client, found both profiles, had sufficient balance, and produced
exactly the two balance writes and the `paid` mark. -/
theorem payJob_ok_inv (db db' : DB) (c j : ℤ) (h : payJob db c j = (.ok, db')) :
    ∃ jobToPay contract clientProfile contractorProfile,
      db.jobs.find? (fun x => x.id == j) = some jobToPay ∧
      truthyOpt jobToPay.paid = false ∧
      db.contracts.find? (fun x => x.id == jobToPay.ContractId) = some contract ∧
      contract.ClientId = c ∧
      db.profiles.find? (fun p => p.id == c) = some clientProfile ∧
      ¬ clientProfile.balance < jobToPay.price ∧
      db.profiles.find? (fun p => p.id == contract.ContractorId) = some contractorProfile ∧
      db' = { db with
        profiles := updateProfileBalance
          (updateProfileBalance db.profiles c
            (toFixed2 (clientProfile.balance - jobToPay.price)))
          contract.ContractorId
          (toFixed2 (contractorProfile.balance + jobToPay.price)),
        jobs := markJobPaid db.jobs j } := by
  unfold payJob at h
  split at h
  · simp at h
  next jobToPay hfind =>
    split at h
    · simp at h
    next hpaid =>
      split at h
      · simp at h
      next contract hct =>
        split at h
        · simp at h
        next hcl =>
          split at h
          · simp at h
          next clientProfile hcp =>
            split at h
            · simp at h
            next hbal =>
              split at h
              · simp at h
              next contractorProfile htp =>
                simp only [Prod.mk.injEq, true_and] at h
                exact ⟨jobToPay, contract, clientProfile, contractorProfile,
                  hfind, by simpa using hpaid, hct, by simpa using hcl,
                  hcp, hbal, htp, h.symm⟩

/-- After `Job.update({paid: 1}, {where: {id: jid}})`, looking the job
up again finds the same row with only `paid` changed. -/
theorem find?_markJobPaid (js : List Job) (jid : ℤ) (job : Job)
    (h : js.find? (fun x => x.id == jid) = some job) :
    (markJobPaid js jid).find? (fun x => x.id == jid) =
      some { job with paid := some true } := by
  induction js with
  | nil => simp at h
  | cons a l ih =>
    simp only [markJobPaid, List.map_cons] at ih ⊢
    by_cases ha : (a.id == jid) = true
    · have h1 : List.find? (fun x => x.id == jid) (a :: l) = some a :=
        List.find?_cons_of_pos l ha
      obtain rfl : a = job := by simpa using h1.symm.trans h
      rw [if_pos ha]
      exact List.find?_cons_of_pos _ ha
    · have h1 : List.find? (fun x => x.id == jid) (a :: l) =
          List.find? (fun x => x.id == jid) l :=
        List.find?_cons_of_neg l (by simpa using ha)
      rw [h1] at h
      rw [if_neg ha]
      have h2 : List.find? (fun x => x.id == jid)
          (a :: List.map
            (fun j => if (j.id == jid) = true then { j with paid := some true } else j) l) =
          List.find? (fun x => x.id == jid)
            (List.map
              (fun j => if (j.id == jid) = true then { j with paid := some true } else j) l) :=
        List.find?_cons_of_neg _ (by simpa using ha)
      rw [h2]
      exact ih h

/-- C3: calling PayJob a second time on a job that a first call has
successfully paid fails with AlreadyPaid and performs no mutation: the
second call returns the post-success database unchanged, so after the
pair the balances reflect exactly the one transfer performed by the
first call.  (Sequentially, AlreadyPaid-before-success cannot arise: a
first AlreadyPaid means the job was already paid, and every later call
is again AlreadyPaid.) -/
theorem C3_second_pay_already_paid (db db' : DB) (c j : ℤ)
    (h : payJob db c j = (.ok, db')) :
    payJob db' c j = (.alreadyPaid, db') := by
  obtain ⟨jobToPay, ct, cp, tp, hfind, hpaid, hct, hcl, hcp, hbal, htp, hdb⟩ :=
    payJob_ok_inv db db' c j h
  have hjobs : db'.jobs = markJobPaid db.jobs j := by rw [hdb]
  unfold payJob
  rw [hjobs, find?_markJobPaid db.jobs j jobToPay hfind]
  simp [truthyOpt]

/-- C3 witness: the end-to-end scenario of the spec (client balance 500
pays job of price 200): the first call succeeds, the second returns
AlreadyPaid with the database unchanged, and the final balances are
300 and 200 — exactly one transfer. -/
theorem C3_second_pay_already_paid_witness :
    payJob (payJob dbScenario 1 1).2 1 1 = (.alreadyPaid, (payJob dbScenario 1 1).2) ∧
    balanceOf (payJob dbScenario 1 1).2 1 = some 300 ∧
    balanceOf (payJob dbScenario 1 1).2 2 = some 200 :=
  ⟨C3_second_pay_already_paid dbScenario (payJob dbScenario 1 1).2 1 1
      (by with_unfolding_all decide),
    by with_unfolding_all decide, by with_unfolding_all decide⟩

/-- C5 (refuting theorem): the job update issued by a successful PayJob
writes only `paid = 1`; the row found afterwards carries the *original*
`paymentDate` — the route never sets `paymentDate`, so a job whose
`paymentDate` was NULL before payment still has a NULL `paymentDate`
after, contrary to the claim that it is set to the commit time. -/
theorem C5_pay_does_not_set_paymentDate (db db' : DB) (c j : ℤ) (job : Job)
    (h : payJob db c j = (.ok, db'))
    (hfind : db.jobs.find? (fun x => x.id == j) = some job) :
    db'.jobs.find? (fun x => x.id == j) = some { job with paid := some true } := by
  obtain ⟨jobToPay, ct, cp, tp, hfind', hpaid, hct, hcl, hcp, hbal, htp, hdb⟩ :=
    payJob_ok_inv db db' c j h
  obtain rfl : jobToPay = job := by
    rw [hfind'] at hfind
    simpa using hfind
  have hjobs : db'.jobs = markJobPaid db.jobs j := by rw [hdb]
  rw [hjobs]
  exact find?_markJobPaid db.jobs j _ hfind'

/-- C5 witness and failing input: in the scenario database the job has
`paymentDate = NULL`; the payment succeeds and the job row afterwards is
`paid = true` with `paymentDate` still NULL. -/
theorem C5_pay_does_not_set_paymentDate_witness :
    (payJob dbScenario 1 1).1 = .ok ∧
    (payJob dbScenario 1 1).2.jobs.find? (fun x => x.id == 1) =
      some { jMain with paid := some true } ∧
    (Job.paymentDate { jMain with paid := some true }) = none :=
  ⟨by with_unfolding_all decide,
    C5_pay_does_not_set_paymentDate dbScenario (payJob dbScenario 1 1).2 1 1 jMain
      (by with_unfolding_all decide) (by with_unfolding_all decide),
    by with_unfolding_all decide⟩

/-- C4: PayJob performs its four checks in source order, each
short-circuiting with the database unchanged: job absent → NotFound; job
already paid (truthy) → AlreadyPaid; the job's contract's client is not
the caller → Forbidden; client balance below the price →
InsufficientBalance; otherwise (balance ≥ price, boundary `balance =
price` included) the call succeeds. -/
theorem C4_pay_check_order (db : DB) (c j : ℤ) :
    (db.jobs.find? (fun x => x.id == j) = none → payJob db c j = (.notFound, db)) ∧
    (∀ job, db.jobs.find? (fun x => x.id == j) = some job →
      truthyOpt job.paid = true → payJob db c j = (.alreadyPaid, db)) ∧
    (∀ job ct, db.jobs.find? (fun x => x.id == j) = some job →
      truthyOpt job.paid = false →
      db.contracts.find? (fun x => x.id == job.ContractId) = some ct →
      ct.ClientId ≠ c → payJob db c j = (.forbidden, db)) ∧
    (∀ job ct cp, db.jobs.find? (fun x => x.id == j) = some job →
      truthyOpt job.paid = false →
      db.contracts.find? (fun x => x.id == job.ContractId) = some ct →
      ct.ClientId = c →
      db.profiles.find? (fun p => p.id == c) = some cp →
      cp.balance < job.price → payJob db c j = (.insufficientBalance, db)) ∧
    (∀ job ct cp tp, db.jobs.find? (fun x => x.id == j) = some job →
      truthyOpt job.paid = false →
      db.contracts.find? (fun x => x.id == job.ContractId) = some ct →
      ct.ClientId = c →
      db.profiles.find? (fun p => p.id == c) = some cp →
      job.price ≤ cp.balance →
      db.profiles.find? (fun p => p.id == ct.ContractorId) = some tp →
      (payJob db c j).1 = .ok) := by
  refine ⟨?_, ?_, ?_, ?_, ?_⟩
  · intro h
    unfold payJob
    rw [h]
  · intro job hf hp
    unfold payJob
    rw [hf]
    simp [hp]
  · intro job ct hf hp hc hne
    unfold payJob
    rw [hf]
    simp only [hp, Bool.false_eq_true, if_false]
    rw [hc]
    simp [bne_iff_ne, hne]
  · intro job ct cp hf hp hc hcl hprof hlt
    unfold payJob
    rw [hf]
    simp only [hp, Bool.false_eq_true, if_false]
    rw [hc]
    simp only [hcl, bne_self_eq_false, Bool.false_eq_true, if_false]
    rw [hprof]
    simp [hlt]
  · intro job ct cp tp hf hp hc hcl hprof hle htp
    unfold payJob
    rw [hf]
    simp only [hp, Bool.false_eq_true, if_false]
    rw [hc]
    simp only [hcl, bne_self_eq_false, Bool.false_eq_true, if_false]
    rw [hprof]
    simp only [not_lt.mpr hle, if_false]
    rw [htp]

/-- C4 witness: each branch exercised at a concrete input — unknown job
id 99 → NotFound; paid job → AlreadyPaid; caller 2 is not the contract's
client → Forbidden; balance 199 against price 200 →
InsufficientBalance; balance exactly 200 against price 200 (the
boundary) → success. -/
theorem C4_pay_check_order_witness :
    payJob dbScenario 1 99 = (.notFound, dbScenario) ∧
    payJob dbPaidJob 1 1 = (.alreadyPaid, dbPaidJob) ∧
    payJob dbScenario 2 1 = (.forbidden, dbScenario) ∧
    payJob dbLowBalance 1 1 = (.insufficientBalance, dbLowBalance) ∧
    (payJob dbExactBalance 1 1).1 = .ok :=
  ⟨(C4_pay_check_order dbScenario 1 99).1 (by with_unfolding_all decide),
    (C4_pay_check_order dbPaidJob 1 1).2.1 ⟨1, 1, 200, some true, some 5⟩
      (by with_unfolding_all decide) (by with_unfolding_all decide),
    (C4_pay_check_order dbScenario 2 1).2.2.1 jMain cMain (by with_unfolding_all decide)
      (by with_unfolding_all decide) (by with_unfolding_all decide)
      (by with_unfolding_all decide),
    (C4_pay_check_order dbLowBalance 1 1).2.2.2.1 jMain cMain ⟨1, "client", 199, ""⟩
      (by with_unfolding_all decide) (by with_unfolding_all decide)
      (by with_unfolding_all decide) (by with_unfolding_all decide)
      (by with_unfolding_all decide) (by with_unfolding_all decide),
    (C4_pay_check_order dbExactBalance 1 1).2.2.2.2 jMain cMain
      ⟨1, "client", 200, ""⟩ pContractor (by with_unfolding_all decide)
      (by with_unfolding_all decide) (by with_unfolding_all decide)
      (by with_unfolding_all decide) (by with_unfolding_all decide)
      (by with_unfolding_all decide) (by with_unfolding_all decide)⟩

/-- C1 (refuting theorem): the pay "transaction" is not atomic.  None of
the three update calls carries the managed transaction in its options
(the `{ transaction: t }` object sits in the ignored third argument), so
each autocommits.  If the operation fails after the first update — shown
here both abstractly (aborting the scenario's mutation list after one
call leaves the client debited to 300 while the contractor still holds 0
and the job is unpaid, a state that is neither the initial nor the final
one) and on a concrete reachable run (`dbNoContractor`: the four
precondition checks all pass, the contractor profile row is absent, and
the crash leaves the client debited with nothing credited) — a partial
ledger state is observable, contrary to the claim. -/
theorem C1_pay_transaction_not_atomic :
    msScenario.all (fun m => !m.isInTxn) = true ∧
    abortAfter dbScenario msScenario 1 ≠ dbScenario ∧
    abortAfter dbScenario msScenario 1 ≠ applyAll dbScenario msScenario ∧
    balanceOf (abortAfter dbScenario msScenario 1) 1 = some 300 ∧
    balanceOf (abortAfter dbScenario msScenario 1) 2 = some 0 ∧
    (abortAfter dbScenario msScenario 1).jobs.find? (fun x => x.id == 1) = some jMain ∧
    (payJob dbNoContractor 1 1).1 = .crash ∧
    (payJob dbNoContractor 1 1).2 ≠ dbNoContractor ∧
    balanceOf (payJob dbNoContractor 1 1).2 1 = some 300 := by
  with_unfolding_all decide

/-- C2 (refuting theorem): the source computes balances with IEEE-754
binary64 arithmetic and `.toFixed(2)`, not an exact two-decimal
representation.  With a stored client/contractor balance of
`100000000000000.00` (representable exactly in binary64; its binade has
ULP `2^-6`) and a job price of `0.01` (stored as the binary64 nearest to
1/100, in the binade with ULP `2^-59`), the credited new balance is
`100000000000000.02`: the balance changes by `0.02`, not by the job's
price. -/
theorem C2_float_money_not_exact :
    toFixed2 (fpRoundAt (-6) ((10:ℚ)^14 + fpRoundAt (-59) (1/100))) -
      (10:ℚ)^14 = 2/100 ∧
    (10:ℚ)^14 - toFixed2 (fpRoundAt (-6) ((10:ℚ)^14 - fpRoundAt (-59) (1/100))) =
      2/100 ∧
    fpRoundAt (-59) (1/100) ≠ 2/100 ∧
    toFixed2 (fpRoundAt (-59) (1/100)) = 1/100 := by
  with_unfolding_all decide

/-- C6: for a self-service deposit by an existing client profile, the
operation succeeds exactly when the amount is at most the computed
ceiling `(unpaidTotal / 100) * 25` (25% of the unpaid-job total, with a
NULL total coercing to 0), and otherwise fails with the deposit-limit
error leaving the database unchanged. -/
theorem C6_deposit_ceiling (db : DB) (c : ℤ) (p : Profile) (amount : ℚ)
    (hp : db.profiles.find? (fun x => x.id == c) = some p)
    (hc : p.type = "client") :
    ((deposit db c c amount).1 = .ok ↔
      amount ≤
        jsNumQ (sumUnpaidPrices db ((activeContractsOf db c).map (·.id))) / 100 * 25) ∧
    (jsNumQ (sumUnpaidPrices db ((activeContractsOf db c).map (·.id))) / 100 * 25 <
        amount →
      deposit db c c amount = (.limitExceeded, db)) := by
  unfold deposit
  rw [bne_self_eq_false, if_neg (by simp), hp]
  dsimp only
  rw [hc, bne_self_eq_false, if_neg (by simp)]
  constructor
  · constructor
    · intro hok
      by_contra hgt
      rw [if_pos (lt_of_not_le hgt)] at hok
      simp at hok
    · intro hle
      rw [if_neg (not_lt.mpr hle)]
  · intro hlt
    rw [if_pos hlt]

/-- C6 witness: with unpaid total 100.00 a deposit of 25.00 succeeds and
25.01 fails with the deposit-limit error; with no unpaid jobs at all the
SQL sum is NULL, the ceiling is 0 and a deposit of 0.01 is rejected. -/
theorem C6_deposit_ceiling_witness :
    (deposit dbUnpaid100 1 1 25).1 = .ok ∧
    deposit dbUnpaid100 1 1 (2501/100) = (.limitExceeded, dbUnpaid100) ∧
    deposit dbNoJobs 1 1 (1/100) = (.limitExceeded, dbNoJobs) ∧
    sumUnpaidPrices dbNoJobs ((activeContractsOf dbNoJobs 1).map (·.id)) = none :=
  ⟨(C6_deposit_ceiling dbUnpaid100 1 ⟨1, "client", 100, ""⟩ 25
      (by with_unfolding_all decide) rfl).1.mpr (by with_unfolding_all decide),
    (C6_deposit_ceiling dbUnpaid100 1 ⟨1, "client", 100, ""⟩ (2501/100)
      (by with_unfolding_all decide) rfl).2 (by with_unfolding_all decide),
    (C6_deposit_ceiling dbNoJobs 1 ⟨1, "client", 100, ""⟩ (1/100)
      (by with_unfolding_all decide) rfl).2 (by with_unfolding_all decide),
    by with_unfolding_all decide⟩

/-- C7 counterexample: the deposit route has no check on the sign of the
amount.  Client 1 (balance 100.00, no unpaid jobs, ceiling 0) deposits
−50: the operation succeeds and the balance drops to 50.00, and a
deposit of 0 is likewise accepted — the claim says any amount ≤ 0 is
rejected with InvalidAmount before any mutation. -/
theorem C7_counterexample_negative_deposit_mutates :
    (deposit dbNoJobs 1 1 (-50)).1 = .ok ∧
    balanceOf (deposit dbNoJobs 1 1 (-50)).2 1 = some 50 ∧
    balanceOf dbNoJobs 1 = some 100 ∧
    (deposit dbNoJobs 1 1 0).1 = .ok := by
  with_unfolding_all decide

/-- C7 amended: the route never checks `amount > 0` and has no
InvalidAmount outcome; whenever the caller is the target, the target is
an existing client profile and the computed unpaid total is nonnegative
(always so with nonnegative job prices), every amount ≤ 0 passes the
ceiling check and is credited — in particular a negative amount
decreases the target's balance. -/
theorem C7_amended_no_amount_check (db : DB) (c : ℤ) (p : Profile) (amount : ℚ)
    (hp : db.profiles.find? (fun x => x.id == c) = some p)
    (hc : p.type = "client")
    (hamt : amount ≤ 0)
    (htot : 0 ≤ jsNumQ (sumUnpaidPrices db ((activeContractsOf db c).map (·.id)))) :
    deposit db c c amount =
      (.ok, { db with
        profiles := updateProfileBalance db.profiles c
          (toFixed2 (p.balance + amount)) }) := by
  unfold deposit
  rw [bne_self_eq_false, if_neg (by simp), hp]
  dsimp only
  rw [hc, bne_self_eq_false, if_neg (by simp)]
  rw [if_neg (not_lt.mpr (hamt.trans (by positivity)))]

/-- C7 amended witness: the concrete −50 deposit of the counterexample,
via the amended theorem. -/
theorem C7_amended_no_amount_check_witness :
    deposit dbNoJobs 1 1 (-50) =
      (.ok, { dbNoJobs with
        profiles := updateProfileBalance dbNoJobs.profiles 1
          (toFixed2 (100 + (-50))) }) :=
  C7_amended_no_amount_check dbNoJobs 1 ⟨1, "client", 100, ""⟩ (-50)
    (by with_unfolding_all decide) rfl (by norm_num) (by with_unfolding_all decide)

/-- C8 (refuting theorem): both report queries use SQL `BETWEEN`, which
is inclusive at *both* endpoints, so a job paid exactly at `end` is
included, contrary to the claimed half-open `[start, end)` policy (and
to the route's own NOTE1 comment).  In `dbReports` the painter's only
job (price 300) is paid exactly at time 100: querying `[0, 100]` counts
it — the painter wins best-profession and client 10 tops best-clients
with 300 — while querying up to 99 drops it.  The inclusive policy is at
least uniform across the two queries. -/
theorem C8_between_includes_end :
    inRangeBetween (some 100) 0 100 = true ∧
    bestProfession dbReports 0 100 = some "painter" ∧
    bestClients dbReports 0 100 2 = [(10, 300), (11, 50)] ∧
    bestProfession dbReports 0 99 = some "plumber" ∧
    bestClients dbReports 0 99 2 = [(11, 50)] := by
  with_unfolding_all decide

/-- C10: a job whose `paid` column is false (not NULL) is invisible to
the `Paid IS NULL` filter shared by the unpaid-jobs listing and the
deposit route's unpaid total, yet `payJob` rejects only truthy `paid`
values, so the same job sails through the AlreadyPaid check and is
paid. -/
theorem C10_paid_false_invisible_yet_payable (db : DB) (c j uid : ℤ)
    (job : Job) (ct : Contract) (cp tp : Profile)
    (hfind : db.jobs.find? (fun x => x.id == j) = some job)
    (hpf : job.paid = some false)
    (hct : db.contracts.find? (fun x => x.id == job.ContractId) = some ct)
    (hcl : ct.ClientId = c)
    (hcp : db.profiles.find? (fun p => p.id == c) = some cp)
    (hbal : job.price ≤ cp.balance)
    (htp : db.profiles.find? (fun p => p.id == ct.ContractorId) = some tp) :
    (∀ ids : List ℤ, unpaidFilter ids job = false) ∧
    job ∉ unpaidJobsOf db uid ∧
    truthyOpt job.paid = false ∧
    (payJob db c j).1 = .ok := by
  have hfil : ∀ ids : List ℤ, unpaidFilter ids job = false := by
    intro ids
    simp [unpaidFilter, hpf]
  refine ⟨hfil, ?_, by simp [truthyOpt, hpf], ?_⟩
  · intro hmem
    have hq := (List.mem_filter.mp hmem).2
    rw [hfil _] at hq
    exact Bool.false_ne_true hq
  · unfold payJob
    rw [hfind]
    simp only [hpf, truthyOpt, Bool.false_eq_true, if_false]
    rw [hct]
    simp only [hcl, bne_self_eq_false, Bool.false_eq_true, if_false]
    rw [hcp]
    simp only [not_lt.mpr hbal, if_false]
    rw [htp]

/-- C10 witness: the scenario job stored with `paid = false` is rejected
by the shared IS-NULL filter, absent from client 1's unpaid listing, yet
client 1's payment of it succeeds. -/
theorem C10_paid_false_invisible_yet_payable_witness :
    unpaidFilter [1] jFalse = false ∧
    jFalse ∉ unpaidJobsOf dbPaidFalse 1 ∧
    truthyOpt jFalse.paid = false ∧
    (payJob dbPaidFalse 1 1).1 = .ok :=
  let h := C10_paid_false_invisible_yet_payable dbPaidFalse 1 1 1 jFalse cMain
    pClient pContractor (by with_unfolding_all decide) rfl
    (by with_unfolding_all decide) rfl (by with_unfolding_all decide)
    (by with_unfolding_all decide) (by with_unfolding_all decide)
  ⟨h.1 [1], h.2.1, h.2.2.1, h.2.2.2⟩

/-- Reading the stored loop value numerically. -/
theorem eJ_toJNum (s : Option ℚ) :
    eJ (toJNum s) = ((jsNumQ s : ℚ) : WithBot ℚ) := by
  cases s <;> simp [eJ, toJNum, jsNumQ]

/-- The JavaScript loop comparison holds exactly when the numeric
reading of the stored maximum is below the numeric reading of the sum
(NULL reading as 0, `-Infinity` as `⊥`). -/
theorem jsLtLoop_iff (m : JNum) (s : Option ℚ) :
    jsLtLoop m s = true ↔ eJ m < ((jsNumQ s : ℚ) : WithBot ℚ) := by
  cases m <;> cases s <;>
    simp [jsLtLoop, eJ, jsNumQ, WithBot.bot_lt_coe, WithBot.coe_lt_coe,
      bot_lt_iff_ne_bot]

/-- If no upcoming contractor beats the stored maximum, the loop state
never changes. -/
theorem bpLoop_stay (db : DB) (s e : ℤ) (l : List Profile) (m : JNum)
    (mid : Option ℤ)
    (h : ∀ p ∈ l, jsLtLoop m (contractorSum db p.id s e) = false) :
    bpLoop db s e l m mid = (m, mid) := by
  induction l with
  | nil => rfl
  | cons a rest ih =>
    simp only [bpLoop]
    rw [h a (List.mem_cons_self a rest)]
    simp only [Bool.false_eq_true, if_false]
    exact ih (fun p hp => h p (List.mem_cons_of_mem a hp))

/-- If `w` numerically dominates every other contractor in the list
(ids being distinct) and the stored maximum is still below `w`'s value,
the loop ends with `w`'s id as the captured maximum. -/
theorem bpLoop_winner (db : DB) (s e : ℤ) (l : List Profile) (m : JNum)
    (mid : Option ℤ) (w : Profile) (hw : w ∈ l)
    (hnd : (l.map (fun p => p.id)).Nodup)
    (hmax : ∀ p ∈ l, p.id ≠ w.id →
      jsNumQ (contractorSum db p.id s e) < jsNumQ (contractorSum db w.id s e))
    (hm : eJ m < ((jsNumQ (contractorSum db w.id s e) : ℚ) : WithBot ℚ)) :
    (bpLoop db s e l m mid).2 = some w.id := by
  induction l generalizing m mid with
  | nil => cases hw
  | cons a rest ih =>
    simp only [bpLoop]
    by_cases hai : a.id = w.id
    · have haw : a = w := by
        rcases List.mem_cons.mp hw with h | h
        · exact h.symm
        · exfalso
          have hmem : w.id ∈ rest.map (fun p => p.id) :=
            List.mem_map_of_mem (fun p => p.id) h
          rw [← hai] at hmem
          exact (List.nodup_cons.mp hnd).1 hmem
      subst haw
      rw [if_pos ((jsLtLoop_iff _ _).mpr hm)]
      rw [bpLoop_stay db s e rest _ _ ?_]
      intro p hp
      have hpid : p.id ≠ a.id := by
        intro hEq
        have hmem : p.id ∈ rest.map (fun q => q.id) :=
          List.mem_map_of_mem (fun q => q.id) hp
        rw [hEq] at hmem
        exact (List.nodup_cons.mp hnd).1 hmem
      have hlt := hmax p (List.mem_cons_of_mem a hp) hpid
      rw [← Bool.not_eq_true, jsLtLoop_iff, eJ_toJNum]
      exact not_lt.mpr (WithBot.coe_lt_coe.mpr hlt).le
    · have hw' : w ∈ rest := by
        rcases List.mem_cons.mp hw with h | h
        · exact absurd (congrArg (fun p => p.id) h.symm) hai
        · exact h
      have hnd' := (List.nodup_cons.mp hnd).2
      have hmax' : ∀ p ∈ rest, p.id ≠ w.id →
          jsNumQ (contractorSum db p.id s e) <
            jsNumQ (contractorSum db w.id s e) :=
        fun p hp => hmax p (List.mem_cons_of_mem a hp)
      by_cases hlt : jsLtLoop m (contractorSum db a.id s e) = true
      · rw [if_pos hlt]
        refine ih _ _ hw' hnd' hmax' ?_
        rw [eJ_toJNum]
        exact WithBot.coe_lt_coe.mpr
          (hmax a (List.mem_cons_self a rest) hai)
      · rw [if_neg hlt]
        exact ih _ _ hw' hnd' hmax' hm

/-- With distinct ids, looking a member up by its id finds it. -/
theorem find?_id_of_mem_nodup (l : List Profile) (w : Profile) (hw : w ∈ l)
    (hnd : (l.map (fun p => p.id)).Nodup) :
    l.find? (fun c => c.id == w.id) = some w := by
  induction l with
  | nil => cases hw
  | cons a rest ih =>
    by_cases ha : a.id = w.id
    · have haw : a = w := by
        rcases List.mem_cons.mp hw with h | h
        · exact h.symm
        · exfalso
          have hmem : w.id ∈ rest.map (fun p => p.id) :=
            List.mem_map_of_mem (fun p => p.id) h
          rw [← ha] at hmem
          exact (List.nodup_cons.mp hnd).1 hmem
      subst haw
      exact List.find?_cons_of_pos _ (by simp)
    · have hw' : w ∈ rest := by
        rcases List.mem_cons.mp hw with h | h
        · exact absurd (congrArg (fun p => p.id) h.symm) ha
        · exact h
      have h1 : List.find? (fun c => c.id == w.id) (a :: rest) =
          List.find? (fun c => c.id == w.id) rest :=
        List.find?_cons_of_neg _ (by simp [ha])
      rw [h1]
      exact ih hw' (List.nodup_cons.mp hnd).2

/-- C9 counterexample: a database with one contractor (profession
"welder") and no jobs at all — no contractor has any paid job in the
range, yet best-profession answers "welder" instead of empty: the SQL
sum is NULL, JavaScript compares `-Infinity < null` as true, and the
first contractor captures the maximum. -/
theorem C9_counterexample_no_paid_jobs :
    contractorSum dbSoloContractor 1 0 10 = none ∧
    bestProfession dbSoloContractor 0 10 = some "welder" := by
  with_unfolding_all decide

/-- C9 amended: (1) when one contractor's in-range paid-job sum strictly
dominates every other contractor's (reading a NULL sum as 0, ids being
distinct), best-profession returns that contractor's profession; (2)
when *no* contractor has a paid job in range (every sum NULL) and the
contractor list is nonempty, it returns the profession of the *first*
contractor rather than empty. -/
theorem C9_amended_best_profession (db : DB) (s e : ℤ) :
    (∀ w : Profile, w ∈ contractorsOf db →
      ((contractorsOf db).map (fun p => p.id)).Nodup →
      (∀ p ∈ contractorsOf db, p.id ≠ w.id →
        jsNumQ (contractorSum db p.id s e) <
          jsNumQ (contractorSum db w.id s e)) →
      bestProfession db s e = some w.profession) ∧
    (∀ c rest, contractorsOf db = c :: rest →
      (∀ p ∈ contractorsOf db, contractorSum db p.id s e = none) →
      bestProfession db s e = some c.profession) := by
  constructor
  · intro w hw hnd hmax
    unfold bestProfession
    have h2 := bpLoop_winner db s e (contractorsOf db) .ninf none w hw hnd hmax
      (by rw [show eJ .ninf = ⊥ from rfl]; exact WithBot.bot_lt_coe _)
    dsimp only
    rw [h2]
    dsimp only
    rw [find?_id_of_mem_nodup (contractorsOf db) w hw hnd]
    rfl
  · intro c rest heq hnull
    have hcmem : c ∈ contractorsOf db := by
      rw [heq]
      exact List.mem_cons_self c rest
    unfold bestProfession
    rw [heq]
    simp only [bpLoop]
    rw [hnull c hcmem]
    rw [if_pos (show jsLtLoop .ninf none = true from rfl)]
    rw [bpLoop_stay db s e rest _ _ ?_]
    · dsimp only
      have h1 : List.find? (fun x => x.id == c.id) (c :: rest) = some c :=
        List.find?_cons_of_pos _ (by simp)
      rw [h1]
      rfl
    · intro p hp
      have hpmem : p ∈ contractorsOf db := by
        rw [heq]
        exact List.mem_cons_of_mem c hp
      rw [hnull p hpmem]
      rfl

/-- C9 amended witness: in `dbReports` the painter's sum 300 strictly
dominates the plumber's 50, and best-profession answers "painter"; in
`dbSoloContractor` every sum is NULL and the first (only) contractor's
profession "welder" is returned. -/
theorem C9_amended_best_profession_witness :
    bestProfession dbReports 0 100 = some "painter" ∧
    bestProfession dbSoloContractor 0 10 = some "welder" :=
  ⟨(C9_amended_best_profession dbReports 0 100).1 ⟨1, "contractor", 0, "painter"⟩
      (by with_unfolding_all decide) (by with_unfolding_all decide)
      (by with_unfolding_all decide),
    (C9_amended_best_profession dbSoloContractor 0 10).2
      ⟨1, "contractor", 0, "welder"⟩ [] (by with_unfolding_all decide)
      (by with_unfolding_all decide)⟩

end RestExercise
